import Mathlib

/-!
Verification development for the GoThic authentication/authorization toolkit.

The Go sources are shallowly embedded in Lean:

* Go byte strings (`string` / `[]byte`) are `List Nat` (`Bytes`); each element
  is one byte value.  `strings.SplitN`, `strings.Index` / `bytes.Index` are
  implemented faithfully over these lists (`splitN`, `findSub`).
* `base64.RawURLEncoding` is modelled as an injective byte-level encoding
  `b64encode` whose output alphabet is a subset of the URL-safe base64
  alphabet (it never contains the default delimiter byte '.'), together with a
  decoder `b64decode` that fails on any malformed input.  These are the only
  properties of base64 that the token codec relies on.
* `helpers.SymmetricEncrypt` / `helpers.SymmetricDecrypt` (AES-256-GCM) are
  modelled as an ideal AEAD: the ciphertext is an injectively encoded record of
  (nonce, key, associated data, plaintext); decryption checks that the supplied
  key and associated data are exactly the ones the record was sealed with and
  otherwise fails, mirroring a GCM authentication failure.  Key-size validation
  (16/24/32 bytes, `aes.NewCipher`) is kept.  Nonce generation is a parameter.
* `time.Now()` is an explicit parameter.  Time is modelled at unix-second
  granularity (`Int`), which is the granularity of every timestamp the code
  stores (`IssuedAt`, `LifetimeSec`, ... are whole seconds).
* Go maps `map[string]string` are association lists with first-match lookup.
* `math/big.Int` permission bitmasks are `Nat`; a `*Permission` pointer is an
  `Option Nat` with `none` for `nil`.  Calling a `big.Int` operation with a
  `nil` operand dereferences a nil pointer and panics; this is modelled by the
  `GoResult.panicked` outcome.
-/

set_option maxRecDepth 40000

namespace GoThic

/-- Bytes models a Go byte string (`string` / `[]byte`): a list of byte values. -/
abbrev Bytes := List Nat

/-- byteValid holds when every element of the list is a real byte value (< 256). -/
def byteValid (bs : Bytes) : Prop := ∀ b ∈ bs, b < 256

instance (bs : Bytes) : Decidable (byteValid bs) := by
  unfold byteValid; infer_instance

/-- findSub models Go `strings.Index` / `bytes.Index`: the index of the first
occurrence of `sep` as a contiguous substring of `s`, or `none`. -/
def findSub (sep : Bytes) : Bytes → Option Nat
  | [] => if sep.isPrefixOf ([] : Bytes) then some 0 else none
  | b :: t =>
    if sep.isPrefixOf (b :: t) then some 0
    else (findSub sep t).map (· + 1)

/-- splitN models Go `strings.SplitN s sep n` for a non-empty separator:
split around the first `n-1` occurrences of `sep`, the remainder unsplit. -/
def splitN (sep : Bytes) : Bytes → Nat → List Bytes
  | _, 0 => []
  | s, 1 => [s]
  | s, n + 2 =>
    match findSub sep s with
    | none => [s]
    | some i => s.take i :: splitN sep (s.drop (i + sep.length)) (n + 1)

/-- b64encode models `base64.RawURLEncoding.EncodeToString`: an injective
byte-level encoding (each byte becomes two characters in the range a..p, a subset
of the URL-safe alphabet; in particular the output never contains '.'). -/
def b64encode : Bytes → Bytes
  | [] => []
  | b :: t => (97 + b / 16) :: (97 + b % 16) :: b64encode t

/-- b64decode models `base64.RawURLEncoding.DecodeString`; it fails (`none`)
on any input that is not an exact b64encode image, as the real decoder fails
on characters outside the alphabet. -/
def b64decode : Bytes → Option Bytes
  | [] => some []
  | [_] => none
  | c1 :: c2 :: t =>
    if 97 ≤ c1 ∧ c1 ≤ 112 ∧ 97 ≤ c2 ∧ c2 ≤ 112 then
      (b64decode t).map (fun bs => ((c1 - 97) * 16 + (c2 - 97)) :: bs)
    else none

/-- encLen is a unary length prefix used by the ideal-ciphertext record. -/
def encLen (n : Nat) : Bytes := List.replicate n 1 ++ [0]

/-- encField length-prefixes one field of the ideal-ciphertext record. -/
def encField (b : Bytes) : Bytes := encLen b.length ++ b

/-- parseLen reads back a unary length prefix. -/
def parseLen : Bytes → Option (Nat × Bytes)
  | 0 :: rest => some (0, rest)
  | 1 :: rest => (parseLen rest).map (fun p => (p.1 + 1, p.2))
  | _ => none

/-- parseField reads back one length-prefixed field. -/
def parseField (bs : Bytes) : Option (Bytes × Bytes) :=
  (parseLen bs).bind fun p =>
    if p.1 ≤ p.2.length then some (p.2.take p.1, p.2.drop p.1) else none

/-- aesKeySizeOk mirrors `aes.NewCipher`: the key must be 16, 24 or 32 bytes. -/
def aesKeySizeOk (key : Bytes) : Bool :=
  key.length == 16 || key.length == 24 || key.length == 32

/-- SymmetricEncrypt models `helpers.SymmetricEncrypt` (AES-GCM, helpers
package) as an ideal AEAD: it validates the key size and produces a
ciphertext that injectively records the nonce, key, associated data and
plaintext.  The fresh random nonce is an explicit parameter. -/
def SymmetricEncrypt (key plaintext associatedData : Bytes) (nonce : Nat) :
    Except String Bytes :=
  if aesKeySizeOk key then
    .ok (encLen nonce ++ (encField key ++ (encField associatedData ++ plaintext)))
  else .error "failed to create AES cipher block"

/-- SymmetricDecrypt models `helpers.SymmetricDecrypt`: it validates the key
size, parses the ideal-ciphertext record, and succeeds only when the supplied
key and associated data are exactly the ones the ciphertext was sealed with
(a GCM tag-authentication failure otherwise). -/
def SymmetricDecrypt (key ciphertext associatedData : Bytes) :
    Except String Bytes :=
  if aesKeySizeOk key then
    match parseLen ciphertext with
    | none => .error "failed to decrypt or authenticate data"
    | some (_, r1) =>
      match parseField r1 with
      | none => .error "failed to decrypt or authenticate data"
      | some (k, r2) =>
        match parseField r2 with
        | none => .error "failed to decrypt or authenticate data"
        | some (ad, pt) =>
          if k = key ∧ ad = associatedData then .ok pt
          else .error "failed to decrypt or authenticate data"
  else .error "failed to create AES cipher block"

theorem parseLen_encLen (n : Nat) (rest : Bytes) :
    parseLen (encLen n ++ rest) = some (n, rest) := by
  induction n with
  | zero => simp [encLen, parseLen]
  | succ m ih =>
    have hsh : encLen (m + 1) ++ rest = 1 :: (encLen m ++ rest) := by
      simp [encLen, List.replicate_succ]
    rw [hsh]
    simp [parseLen, ih]

theorem parseField_encField (b rest : Bytes) :
    parseField (encField b ++ rest) = some (b, rest) := by
  unfold parseField encField
  rw [List.append_assoc, parseLen_encLen]
  simp [List.take_left, List.drop_left]

theorem b64decode_b64encode (bs : Bytes) (h : byteValid bs) :
    b64decode (b64encode bs) = some bs := by
  induction bs with
  | nil => simp [b64encode, b64decode]
  | cons b t ih =>
    have hb : b < 256 := h b (List.mem_cons_self b t)
    have ht : byteValid t := fun x hx => h x (List.mem_cons_of_mem b hx)
    have hmod : b % 16 ≤ 15 := Nat.le_of_lt_succ (Nat.mod_lt b (by norm_num))
    have hrange : 97 ≤ 97 + b / 16 ∧ 97 + b / 16 ≤ 112 ∧
        97 ≤ 97 + b % 16 ∧ 97 + b % 16 ≤ 112 := by omega
    have hval : (97 + b / 16 - 97) * 16 + (97 + b % 16 - 97) = b := by
      have := Nat.div_add_mod b 16
      omega
    have hcons : b64encode (b :: t) = (97 + b / 16) :: (97 + b % 16) :: b64encode t := rfl
    rw [hcons]
    simp [b64decode, if_pos hrange, ih ht, hval]
    omega

theorem symmetric_roundtrip (key pt ad ct : Bytes) (nonce : Nat)
    (henc : SymmetricEncrypt key pt ad nonce = .ok ct) :
    SymmetricDecrypt key ct ad = .ok pt := by
  unfold SymmetricEncrypt at henc
  by_cases hk : aesKeySizeOk key = true
  · rw [if_pos hk] at henc
    cases henc
    unfold SymmetricDecrypt
    rw [if_pos hk, parseLen_encLen]
    simp [parseField_encField]
  · rw [if_neg hk] at henc
    exact absurd henc (by simp)

theorem symmetric_ad_mismatch (key pt ad ad2 ct : Bytes) (nonce : Nat)
    (henc : SymmetricEncrypt key pt ad nonce = .ok ct) (hne : ad2 ≠ ad) :
    SymmetricDecrypt key ct ad2 = .error "failed to decrypt or authenticate data" := by
  unfold SymmetricEncrypt at henc
  by_cases hk : aesKeySizeOk key = true
  · rw [if_pos hk] at henc
    cases henc
    unfold SymmetricDecrypt
    rw [if_pos hk, parseLen_encLen]
    simp only [parseField_encField]
    rw [if_neg]
    rintro ⟨-, h2⟩
    exact hne h2.symm
  · rw [if_neg hk] at henc
    exact absurd henc (by simp)

/-- defaultBytes models `helpers.DefaultString`: the default replaces an empty value. -/
def defaultBytes (value defaultValue : Bytes) : Bytes :=
  if value = [] then defaultValue else value

/-- defaultNat models `helpers.DefaultInt`: the default replaces a zero value. -/
def defaultNat (value defaultValue : Nat) : Nat :=
  if value = 0 then defaultValue else value

/-- dot is the byte of `DefaultSessionAuthorizationDelimiter` ("."). -/
def dot : Bytes := [46]

/-- sg1 is `SessionAuthorizationVersion` ("SG1") as bytes. -/
def sg1 : Bytes := [83, 71, 49]

/-- CreateAuthorizationCore models the codec part of `core.CreateAuthorization`
(src/core/authorization.go:117-158), taking the already-encoded header string
and claims payload (the outputs of `SessionHeader.Encode` and
`SessionClaims.EncodePayload`), the session key and key id resolved by the
session manager, and the fresh AEAD nonce. -/
def CreateAuthorizationCore (delim0 headerStr payloadStr key keyId : Bytes)
    (nonce : Nat) : Except String Bytes :=
  let delim := defaultBytes delim0 dot
  let authorizationValue := headerStr ++ delim ++ payloadStr
  if keyId.length < 1 ∨ keyId.length > 32 then
    .error "invalid keyId size"
  else
    match SymmetricEncrypt key authorizationValue (keyId ++ sg1) nonce with
    | .error e => .error e
    | .ok encryptedValue =>
      .ok (sg1 ++ delim ++ keyId ++ delim ++ b64encode encryptedValue)

/-- extractSessionAuthorizationParts models the function of the same name
(src/unnamed/part_015:18-88): size checks, 3-way split, keyId/version bounds,
key resolution, base64 decode, AEAD decrypt, and the final split of the
plaintext at the first delimiter. -/
def extractSessionAuthorizationParts (delim0 : Bytes) (maxSize0 : Nat)
    (getOldSessionKey : Bytes → Except String Bytes) (tok : Bytes) :
    Except String (Bytes × Bytes) :=
  let delim := defaultBytes delim0 dot
  if tok = [] then .error "authorization token is empty"
  else if tok.length > defaultNat maxSize0 4095 then
    .error "authorization token exceeds maximum size"
  else if tok.length < 128 then
    .error "authorization token is too small"
  else
    match splitN delim tok 3 with
    | [keyVersion, keyId, encryptedPart] =>
      if keyId.length < 1 ∨ keyId.length > 32 then
        .error "invalid keyId size in token"
      else if keyVersion.length < 1 ∨ keyVersion.length > 32 then
        .error "invalid keyVersion size in token"
      else
        match getOldSessionKey keyId with
        | .error _ => .error "failed to retrieve session key"
        | .ok sessionKey =>
          match b64decode encryptedPart with
          | none => .error "failed to base64-decode token"
          | some decodedValue =>
            match SymmetricDecrypt sessionKey decodedValue (keyId ++ keyVersion) with
            | .error _ => .error "failed to decrypt token"
            | .ok decryptedValue =>
              match findSub delim decryptedValue with
              | none => .error "invalid decrypted token format: missing final delimiter"
              | some splitIndex =>
                .ok (decryptedValue.take splitIndex,
                     decryptedValue.drop (splitIndex + delim.length))
    | _ => .error "invalid token format: expected 3 parts"

theorem findSub_single (d : Nat) (a rest : Bytes) (h : d ∉ a) :
    findSub [d] (a ++ d :: rest) = some a.length := by
  induction a with
  | nil => simp [findSub, List.isPrefixOf]
  | cons x t ih =>
    have hdx : d ≠ x := fun he => h (he ▸ List.mem_cons_self x t)
    have hdt : d ∉ t := fun he => h (List.mem_cons_of_mem x he)
    simp [findSub, List.isPrefixOf, hdx, ih hdt]

theorem take_len_append (a b : Bytes) : (a ++ b).take a.length = a :=
  List.take_left a b

theorem drop_past_delim (a : Bytes) (d : Nat) (rest : Bytes) :
    (a ++ d :: rest).drop (a.length + 1) = rest := by
  have hsh : a ++ d :: rest = (a ++ [d]) ++ rest := by simp
  have hl : a.length + 1 = (a ++ [d]).length := by simp
  rw [hsh, hl, List.drop_left]

theorem splitN_step (sep s : Bytes) (n i : Nat) (hf : findSub sep s = some i) :
    splitN sep s (n + 2) = s.take i :: splitN sep (s.drop (i + sep.length)) (n + 1) := by
  rw [splitN, hf]

theorem splitN_three (d : Nat) (v k e : Bytes) (hv : d ∉ v) (hk : d ∉ k) :
    splitN [d] (v ++ d :: (k ++ d :: e)) 3 = [v, k, e] := by
  have h3 : (3 : Nat) = 1 + 2 := rfl
  have hlen1 : ([d] : Bytes).length = 1 := rfl
  rw [h3, splitN_step [d] _ 1 v.length (findSub_single d v (k ++ d :: e) hv)]
  rw [take_len_append v (d :: (k ++ d :: e)), hlen1, drop_past_delim v d (k ++ d :: e)]
  have h2 : (1 : Nat) + 1 = 0 + 2 := rfl
  rw [h2, splitN_step [d] _ 0 k.length (findSub_single d k e hk)]
  rw [take_len_append k (d :: e), hlen1, drop_past_delim k d e]
  rfl

theorem byteValid_append {a b : Bytes} (ha : byteValid a) (hb : byteValid b) :
    byteValid (a ++ b) := by
  intro x hx
  rcases List.mem_append.mp hx with h | h
  · exact ha x h
  · exact hb x h

theorem byteValid_encLen (n : Nat) : byteValid (encLen n) := by
  intro x hx
  unfold encLen at hx
  rcases List.mem_append.mp hx with h | h
  · have := List.eq_of_mem_replicate h
    omega
  · simp only [List.mem_singleton] at h
    omega

theorem byteValid_encField {b : Bytes} (hb : byteValid b) : byteValid (encField b) :=
  byteValid_append (byteValid_encLen _) hb

theorem byteValid_sg1 : byteValid sg1 := by decide

/-- C1 (amended): codec round trip.  For every header string, payload string,
AES key, key id within the configured size bounds, and single-byte delimiter
that occurs in none of the version, the key id and the header string, the wire
string produced by `CreateAuthorizationCore` (whose length is within the
configured token size bounds) is decoded by `extractSessionAuthorizationParts`
back to exactly the header string and payload string, when the session manager
resolves the same key for that key id. -/
theorem C1_tokenCodecRoundTrip
    (d : Nat) (headerStr payloadStr key keyId wire : Bytes) (nonce maxSize0 : Nat)
    (getOldSessionKey : Bytes → Except String Bytes)
    (henc : CreateAuthorizationCore [d] headerStr payloadStr key keyId nonce = .ok wire)
    (hres : getOldSessionKey keyId = .ok key)
    (hlo : 128 ≤ wire.length)
    (hhi : wire.length ≤ defaultNat maxSize0 4095)
    (hdv : d ∉ sg1) (hdk : d ∉ keyId) (hdh : d ∉ headerStr)
    (hbk : byteValid key) (hbkid : byteValid keyId)
    (hbh : byteValid headerStr) (hbp : byteValid payloadStr) (hd : d < 256) :
    extractSessionAuthorizationParts [d] maxSize0 getOldSessionKey wire
      = .ok (headerStr, payloadStr) := by
  have hdelim_ne : ¬ (([d] : Bytes) = []) := by simp
  unfold CreateAuthorizationCore at henc
  simp only [defaultBytes, if_neg hdelim_ne] at henc
  by_cases hkb : keyId.length < 1 ∨ keyId.length > 32
  · rw [if_pos hkb] at henc
    exact absurd henc (by simp)
  rw [if_neg hkb] at henc
  cases hse : SymmetricEncrypt key (headerStr ++ [d] ++ payloadStr) (keyId ++ sg1) nonce with
  | error e =>
    rw [hse] at henc
    exact absurd henc (by simp)
  | ok ct =>
    rw [hse] at henc
    have hwire : wire = sg1 ++ [d] ++ keyId ++ [d] ++ b64encode ct := by
      cases henc
      rfl
    have hctvalid : byteValid ct := by
      unfold SymmetricEncrypt at hse
      by_cases hks : aesKeySizeOk key = true
      · rw [if_pos hks] at hse
        cases hse
        refine byteValid_append (byteValid_encLen nonce) ?_
        refine byteValid_append (byteValid_encField hbk) ?_
        refine byteValid_append (byteValid_encField (byteValid_append hbkid byteValid_sg1)) ?_
        refine byteValid_append (byteValid_append hbh ?_) hbp
        intro x hx
        simp only [List.mem_singleton] at hx
        omega
      · rw [if_neg hks] at hse
        exact absurd hse (by simp)
    have hwne : wire ≠ [] := by
      intro h
      rw [h] at hlo
      simp at hlo
    have hnot_big : ¬ (wire.length > defaultNat maxSize0 4095) := not_lt.mpr hhi
    have hnot_small : ¬ (wire.length < 128) := not_lt.mpr hlo
    have hsplitform : wire = sg1 ++ d :: (keyId ++ d :: b64encode ct) := by
      rw [hwire]
      simp
    unfold extractSessionAuthorizationParts
    simp only [defaultBytes, if_neg hdelim_ne, if_neg hwne, if_neg hnot_big, if_neg hnot_small]
    rw [hsplitform, splitN_three d sg1 keyId (b64encode ct) hdv hdk]
    have hvb : ¬ (sg1.length < 1 ∨ sg1.length > 32) := by decide
    simp only [if_neg hkb, if_neg hvb]
    have hvalform : headerStr ++ [d] ++ payloadStr = headerStr ++ d :: payloadStr := by
      simp
    simp only [hres, b64decode_b64encode ct hctvalid,
      symmetric_roundtrip key (headerStr ++ [d] ++ payloadStr) (keyId ++ sg1) ct nonce hse,
      hvalform, findSub_single d headerStr payloadStr hdh]
    simp [take_len_append, drop_past_delim]

/-- keyW is a concrete 16-byte AES key used by concrete instances. -/
def keyW : Bytes := List.replicate 16 7

/-- hdrW is a concrete encoded-header string. -/
def hdrW : Bytes := [104, 104]

/-- payW is a concrete encoded-claims payload, long enough that the produced
wire string clears the 128-byte minimum token size. -/
def payW : Bytes := List.replicate 20 112

/-- wireW is the token produced from the concrete inputs under key id "k". -/
def wireW : Bytes :=
  ((CreateAuthorizationCore [46] hdrW payW keyW [107] 0).toOption).getD []

theorem C1_tokenCodecRoundTrip_witness :
    extractSessionAuthorizationParts [46] 0 (fun _ => Except.ok keyW) wireW
      = .ok (hdrW, payW) :=
  C1_tokenCodecRoundTrip 46 hdrW payW keyW [107] wireW 0 0
    (fun _ => Except.ok keyW) (by rfl) (by rfl) (by decide) (by decide)
    (by decide) (by decide) (by decide) (by decide) (by decide) (by decide)
    (by decide) (by decide)

/-- hdrC1 is a concrete encoded-header string for the counterexamples. -/
def hdrC1 : Bytes := [104]

/-- payC1 is a concrete encoded-claims payload for the counterexamples. -/
def payC1 : Bytes := List.replicate 20 112

/-- keyIdDotted is the key id "a.b": 3 bytes, within the configured bounds
[1, 32], but containing the default delimiter '.'. -/
def keyIdDotted : Bytes := [97, 46, 98]

/-- wireDotted is the token produced under key id "a.b" and default delimiter. -/
def wireDotted : Bytes :=
  ((CreateAuthorizationCore [] hdrC1 payC1 keyW keyIdDotted 0).toOption).getD []

/-- C1 counterexample: the claim as stated quantifies only over the configured
size bounds, but a key id containing the delimiter ("a.b", length 3 within
[1, 32]) shifts the 3-way split, so decoding the produced wire string fails
even though every size bound holds and the resolver returns the right key. -/
theorem C1_counterexample :
    (1 ≤ keyIdDotted.length ∧ keyIdDotted.length ≤ 32) ∧
    CreateAuthorizationCore [] hdrC1 payC1 keyW keyIdDotted 0 = .ok wireDotted ∧
    128 ≤ wireDotted.length ∧ wireDotted.length ≤ 4095 ∧
    extractSessionAuthorizationParts [] 0 (fun _ => Except.ok keyW) wireDotted
      = .error "failed to base64-decode token" :=
  ⟨by decide, by rfl, by decide, by decide, by rfl⟩

/-- C2 (amended): key/version binding up to concatenation.  A decode attempt
whose key id part `k2` and version part `v2` satisfy `k2 ++ v2 ≠ keyId ++
version` fails with an error even when the same raw key bytes are resolved; in
particular changing exactly one of the two parts always makes decoding fail.
(The unamended claim also asserted failure when both parts change jointly; the
counterexample shows a boundary shift with `k2 ++ v2 = keyId ++ version`
decodes successfully, because the associated data is the unkeyed
concatenation `keyID+version`.) -/
theorem C2_keyVersionBinding
    (d : Nat) (headerStr payloadStr key keyId encPart v2 k2 forged : Bytes)
    (nonce maxSize0 : Nat)
    (getOldSessionKey : Bytes → Except String Bytes)
    (henc : CreateAuthorizationCore [d] headerStr payloadStr key keyId nonce
      = .ok (sg1 ++ [d] ++ keyId ++ [d] ++ encPart))
    (hres : getOldSessionKey k2 = .ok key)
    (had : k2 ++ v2 ≠ keyId ++ sg1)
    (hdv2 : d ∉ v2) (hdk2 : d ∉ k2)
    (hkb2 : ¬ (k2.length < 1 ∨ k2.length > 32))
    (hvb2 : ¬ (v2.length < 1 ∨ v2.length > 32))
    (hforged : forged = v2 ++ d :: (k2 ++ d :: encPart))
    (hlo : 128 ≤ forged.length) (hhi : forged.length ≤ defaultNat maxSize0 4095)
    (hbk : byteValid key) (hbkid : byteValid keyId)
    (hbh : byteValid headerStr) (hbp : byteValid payloadStr) (hd : d < 256) :
    extractSessionAuthorizationParts [d] maxSize0 getOldSessionKey forged
      = .error "failed to decrypt token" := by
  have hdelim_ne : ¬ (([d] : Bytes) = []) := by simp
  unfold CreateAuthorizationCore at henc
  simp only [defaultBytes, if_neg hdelim_ne] at henc
  by_cases hkb : keyId.length < 1 ∨ keyId.length > 32
  · rw [if_pos hkb] at henc
    exact absurd henc (by simp)
  rw [if_neg hkb] at henc
  cases hse : SymmetricEncrypt key (headerStr ++ [d] ++ payloadStr) (keyId ++ sg1) nonce with
  | error e =>
    rw [hse] at henc
    exact absurd henc (by simp)
  | ok ct =>
    rw [hse] at henc
    have henc2 : sg1 ++ [d] ++ keyId ++ [d] ++ b64encode ct
        = sg1 ++ [d] ++ keyId ++ [d] ++ encPart := Except.ok.inj henc
    have hencPart : encPart = b64encode ct := by
      have := henc2
      simp only [List.append_assoc] at this
      have h1 := List.append_cancel_left this
      have h2 := List.append_cancel_left h1
      have h3 := List.append_cancel_left h2
      exact (List.append_cancel_left h3).symm
    have hctvalid : byteValid ct := by
      unfold SymmetricEncrypt at hse
      by_cases hks : aesKeySizeOk key = true
      · rw [if_pos hks] at hse
        cases hse
        refine byteValid_append (byteValid_encLen nonce) ?_
        refine byteValid_append (byteValid_encField hbk) ?_
        refine byteValid_append (byteValid_encField (byteValid_append hbkid byteValid_sg1)) ?_
        refine byteValid_append (byteValid_append hbh ?_) hbp
        intro x hx
        simp only [List.mem_singleton] at hx
        omega
      · rw [if_neg hks] at hse
        exact absurd hse (by simp)
    have hfne : forged ≠ [] := by
      intro h
      rw [h] at hlo
      simp at hlo
    have hnot_big : ¬ (forged.length > defaultNat maxSize0 4095) := not_lt.mpr hhi
    have hnot_small : ¬ (forged.length < 128) := not_lt.mpr hlo
    unfold extractSessionAuthorizationParts
    simp only [defaultBytes, if_neg hdelim_ne, if_neg hfne, if_neg hnot_big, if_neg hnot_small]
    rw [hforged, splitN_three d v2 k2 encPart hdv2 hdk2]
    simp only [if_neg hkb2, if_neg hvb2]
    rw [hencPart]
    simp only [hres, b64decode_b64encode ct hctvalid,
      symmetric_ad_mismatch key (headerStr ++ [d] ++ payloadStr) (keyId ++ sg1) (k2 ++ v2)
        ct nonce hse had]

/-- encPartW is the ciphertext part of the concrete token wireW. -/
def encPartW : Bytes := wireW.drop 6

theorem C2_keyVersionBinding_witness :
    extractSessionAuthorizationParts [46] 0 (fun _ => Except.ok keyW)
      ([88] ++ 46 :: ([107] ++ 46 :: encPartW)) = .error "failed to decrypt token" :=
  C2_keyVersionBinding 46 hdrW payW keyW [107] encPartW [88] [107]
    ([88] ++ 46 :: ([107] ++ 46 :: encPartW)) 0 0 (fun _ => Except.ok keyW)
    (by rfl) (by rfl) (by decide) (by decide) (by decide) (by decide) (by decide)
    (by rfl) (by decide) (by decide) (by decide) (by decide) (by decide) (by decide)
    (by decide)

/-- keyIdA is the single-byte key id "a". -/
def keyIdA : Bytes := [97]

/-- wireA is the token produced under key id "a" (associated data "aSG1"). -/
def wireA : Bytes :=
  ((CreateAuthorizationCore [] hdrC1 payC1 keyW keyIdA 0).toOption).getD []

/-- forgedA rewrites the wire parts to key id "aS" and version "G1": both
parts differ from the original ("a", "SG1"), but their concatenation is again
"aSG1". -/
def forgedA : Bytes := [71, 49] ++ [46] ++ [97, 83] ++ [46] ++ (wireA.drop 6)

/-- C2 counterexample: a token created under key id "a" and version "SG1"
decodes successfully after its key id part is replaced by "aS" and its version
part by "G1" (both parts differ from the originals, the same raw key bytes are
resolved), because the associated data "aS"+"G1" = "a"+"SG1" coincides; the
claim asserts any such decode attempt must fail. -/
theorem C2_counterexample :
    CreateAuthorizationCore [] hdrC1 payC1 keyW keyIdA 0 = .ok wireA ∧
    ([97, 83] : Bytes) ≠ keyIdA ∧ ([71, 49] : Bytes) ≠ sg1 ∧
    extractSessionAuthorizationParts [] 0 (fun _ => Except.ok keyW) forgedA
      = .ok (hdrC1, payC1) :=
  ⟨by rfl, by decide, by decide, by rfl⟩

/-- SessionHeader models `core.SessionHeader`.  All timestamps and durations
are whole unix seconds (`Int`), the granularity at which the header stores
them (`int64(duration.Seconds())`, `time.Now().Unix()`). -/
structure SessionHeader where
  bearer : Bool
  lifetimeSec : Int
  refreshPeriodSec : Int
  issuedAt : Int
deriving DecidableEq

/-- NewSessionHeader models `core.NewSessionHeader`; `now` stands for
`time.Now().Unix()`. -/
def NewSessionHeader (bearer : Bool) (expiresAt refreshAt now : Int) : SessionHeader :=
  { lifetimeSec := expiresAt, refreshPeriodSec := refreshAt, issuedAt := now,
    bearer := bearer }

/-- SessionHeader.IsExpired models `(h SessionHeader) IsExpired`. -/
def SessionHeader.IsExpired (h : SessionHeader) (now : Int) : Bool :=
  h.issuedAt + h.lifetimeSec < now

/-- SessionHeader.NeedsRefresh models `(h SessionHeader) NeedsRefresh`. -/
def SessionHeader.NeedsRefresh (h : SessionHeader) (now : Int) : Bool :=
  h.issuedAt + h.refreshPeriodSec < now

/-- SessionHeader.IsValid models `(h SessionHeader) IsValid`. -/
def SessionHeader.IsValid (h : SessionHeader) : Bool :=
  h.lifetimeSec > 0 && h.refreshPeriodSec > 0 && h.issuedAt > 0

/-- strBytes converts a Lean string to its byte list (ASCII contents). -/
def strBytes (s : String) : Bytes := s.data.map Char.toNat

/-- natDecimal renders a natural number in decimal ASCII. -/
def natDecimal (n : Nat) : Bytes := (Nat.toDigits 10 n).map Char.toNat

/-- intDecimal renders an integer in decimal ASCII (with a leading '-'). -/
def intDecimal (i : Int) : Bytes :=
  if i < 0 then 45 :: natDecimal (-i).toNat else natDecimal i.toNat

/-- jsonStr renders a JSON string literal (claim keys and values here contain
no characters needing escapes). -/
def jsonStr (s : String) : Bytes := 34 :: strBytes s ++ [34]

/-- jsonBool renders a JSON boolean. -/
def jsonBool (b : Bool) : Bytes :=
  if b then strBytes "true" else strBytes "false"

/-- sessionHeaderEncode models `SessionHeader.Encode`: URL-safe base64 of the
JSON rendering (fields in struct order, as `encoding/json` emits them). -/
def sessionHeaderEncode (h : SessionHeader) : Bytes :=
  b64encode (123 :: (jsonStr "bearer" ++ [58] ++ jsonBool h.bearer ++ [44]
    ++ jsonStr "lifetimeSec" ++ [58] ++ intDecimal h.lifetimeSec ++ [44]
    ++ jsonStr "refreshPeriodSec" ++ [58] ++ intDecimal h.refreshPeriodSec ++ [44]
    ++ jsonStr "issuedAt" ++ [58] ++ intDecimal h.issuedAt ++ [125]))

/-- SessionClaims models `core.SessionClaims`; the Go string map is an
association list (first match wins on lookup, assignment replaces). -/
structure SessionClaims where
  claims : List (String × String)
  hasSession : Bool
deriving DecidableEq

/-- SessionModeClaim is the reserved claim key `"___sm"`. -/
def SessionModeClaim : String := "___sm"

/-- CsrfTokenTie is the reserved claim key `"___ct"`. -/
def CsrfTokenTie : String := "___ct"

/-- SessionIdentifier is the reserved claim key `"___id"`. -/
def SessionIdentifier : String := "___id"

/-- RbacCacheIdentifier is the reserved claim key `"___ri"`. -/
def RbacCacheIdentifier : String := "___ri"

/-- VersionClaim is the reserved claim key `"___v"`. -/
def VersionClaim : String := "___v"

/-- SessionClaims.hasClaim models `(d *SessionClaims) HasClaim`. -/
def SessionClaims.hasClaim (c : SessionClaims) (k : String) : Bool :=
  (c.claims.find? (fun p => p.1 == k)).isSome

/-- SessionClaims.getClaim models `(d *SessionClaims) GetClaim`: the value and
the map-membership flag. -/
def SessionClaims.getClaim (c : SessionClaims) (k : String) : String × Bool :=
  match c.claims.find? (fun p => p.1 == k) with
  | some p => (p.2, true)
  | none => ("", false)

/-- SessionClaims.setClaim models `(d *SessionClaims) SetClaim` (map
assignment: replace an existing binding, else add one). -/
def SessionClaims.setClaim (c : SessionClaims) (k v : String) : SessionClaims :=
  if c.hasClaim k then
    { c with claims := c.claims.map (fun p => if p.1 == k then (k, v) else p) }
  else
    { c with claims := c.claims ++ [(k, v)] }

/-- SessionClaims.setIfNotSet models `(d *SessionClaims) SetIfNotSet`. -/
def SessionClaims.setIfNotSet (c : SessionClaims) (k v : String) : SessionClaims :=
  if c.hasClaim k then c else c.setClaim k v

/-- claimsEncodePayload models `SessionClaims.EncodePayload`: URL-safe base64
of the JSON object of the claims map.  (Key order is immaterial to every
claim settled here; bindings are rendered in list order.) -/
def claimsEncodePayload (c : SessionClaims) : Bytes :=
  b64encode (123 :: (String.intercalate "," (c.claims.map
    (fun p => "\x22" ++ p.1 ++ "\x22:\x22" ++ p.2 ++ "\x22"))).data.map Char.toNat ++ [125])

/-- GenIds carries the random identifiers produced by `helpers.GenerateID`
during `ensureBasicClaims`; randomness is a parameter of the model. -/
structure GenIds where
  csrfTie : String
  sessionId : String
  rbacId : String
deriving DecidableEq

/-- ensureBasicClaims models `core.ensureBasicClaims`
(src/core/authorization.go:58-93): session-mode size check, then the
`SetIfNotSet`/`SetClaim` sequence. -/
def ensureBasicClaims (group : String) (claims : SessionClaims) (gen : GenIds)
    (rbacEnabled : Bool) : Except String SessionClaims :=
  if group.length < 1 ∨ group.length > 32 then
    .error "session mode claim must be between 1 and 32 characters"
  else
    let c1 := claims.setIfNotSet SessionModeClaim group
    let c2 := c1.setIfNotSet CsrfTokenTie gen.csrfTie
    let c3 := c2.setIfNotSet SessionIdentifier gen.sessionId
    let c4 := if rbacEnabled then c3.setIfNotSet RbacCacheIdentifier gen.rbacId else c3
    .ok (c4.setClaim VersionClaim "SG1")

/-- CreateAuthorization models `core.CreateAuthorization` end to end:
`ensureBasicClaims`, header/payload encoding, then the codec core. -/
def CreateAuthorization (group : String) (hdr : SessionHeader) (delim0 : Bytes)
    (claims : SessionClaims) (key keyId : Bytes) (nonce : Nat) (gen : GenIds)
    (rbacEnabled : Bool) : Except String Bytes :=
  match ensureBasicClaims group claims gen rbacEnabled with
  | .error e => .error e
  | .ok c2 =>
    CreateAuthorizationCore delim0 (sessionHeaderEncode hdr) (claimsEncodePayload c2)
      key keyId nonce

/-- defaultInt models `helpers.DefaultTimeDuration` on second-granularity
integers: the default replaces a zero value. -/
def defaultInt (value defaultValue : Int) : Int :=
  if value = 0 then defaultValue else value

/-- refreshedSessionHeader models steps 1-3 of `core.CreateRefreshAuthorization`
(src/core/authorization.go:182-195): a new header with the remaining lifetime
`(issuedAt + lifetimeSec) - now` and a new IssuedAt of `now`; the default
refresh period is `DefaultSessionRefreshTime` (5 minutes = 300 s). -/
def refreshedSessionHeader (now : Int) (old : SessionHeader) (refreshTime0 : Int) :
    SessionHeader :=
  NewSessionHeader false (old.issuedAt + old.lifetimeSec - now)
    (defaultInt refreshTime0 300) now

/-- CreateRefreshAuthorization models `core.CreateRefreshAuthorization`
(src/core/authorization.go:161-198): require the session-mode claim, refuse to
refresh at or past the absolute expiry, else issue a token for the refreshed
header. -/
def CreateRefreshAuthorization (now : Int) (delim0 : Bytes) (refreshTime0 : Int)
    (claims : SessionClaims) (old : SessionHeader) (key keyId : Bytes) (nonce : Nat)
    (gen : GenIds) (rbacEnabled : Bool) : Except String Bytes :=
  let mo := claims.getClaim SessionModeClaim
  if mo.2 = false then
    .error "session mode claim is missing, cannot create refresh token"
  else if old.issuedAt + old.lifetimeSec - now ≤ 0 then
    .error "cannot refresh an already expired token"
  else
    CreateAuthorization mo.1 (refreshedSessionHeader now old refreshTime0) delim0
      claims key keyId nonce gen rbacEnabled

/-- C4: refresh preserves the absolute expiry.  With `issuedAt = T0` and
`lifetimeSec = L`, a refresh at `T1 < T0 + L` succeeds and the new header
satisfies `issuedAt + lifetimeSec = T0 + L` with `issuedAt = T1`; a refresh at
`T1 ≥ T0 + L` returns an error and issues no token. -/
theorem C4_refreshPreservesAbsoluteExpiry
    (now refreshTime0 : Int) (delim0 : Bytes) (claims : SessionClaims)
    (old : SessionHeader) (key keyId : Bytes) (nonce : Nat) (gen : GenIds)
    (rbacEnabled : Bool) (mode : String)
    (hmode : claims.getClaim SessionModeClaim = (mode, true))
    (hmlen : 1 ≤ mode.length ∧ mode.length ≤ 32)
    (hkid : ¬ (keyId.length < 1 ∨ keyId.length > 32))
    (hks : aesKeySizeOk key = true) :
    (now < old.issuedAt + old.lifetimeSec →
      (∃ tok, CreateRefreshAuthorization now delim0 refreshTime0 claims old key keyId
        nonce gen rbacEnabled = .ok tok) ∧
      (refreshedSessionHeader now old refreshTime0).issuedAt
        + (refreshedSessionHeader now old refreshTime0).lifetimeSec
        = old.issuedAt + old.lifetimeSec ∧
      (refreshedSessionHeader now old refreshTime0).issuedAt = now) ∧
    (old.issuedAt + old.lifetimeSec ≤ now →
      CreateRefreshAuthorization now delim0 refreshTime0 claims old key keyId
        nonce gen rbacEnabled
        = .error "cannot refresh an already expired token") := by
  constructor
  · intro hlt
    refine ⟨?_, ?_, rfl⟩
    · unfold CreateRefreshAuthorization
      simp only [hmode]
      rw [if_neg (by simp), if_neg (by omega)]
      simp only [CreateAuthorization, ensureBasicClaims, CreateAuthorizationCore,
        SymmetricEncrypt, defaultBytes, if_neg hkid, if_pos hks,
        if_neg (show ¬ (mode.length < 1 ∨ mode.length > 32) by omega)]
      exact ⟨_, rfl⟩
    · show now + (old.issuedAt + old.lifetimeSec - now) = old.issuedAt + old.lifetimeSec
      omega
  · intro hge
    unfold CreateRefreshAuthorization
    simp only [hmode]
    rw [if_neg (by simp), if_pos (by omega)]

/-- claimsW is a concrete claims set with the session-mode claim present. -/
def claimsW : SessionClaims :=
  { claims := [(SessionModeClaim, "user")], hasSession := true }

/-- genW carries concrete generated identifiers. -/
def genW : GenIds := { csrfTie := "tie", sessionId := "sid", rbacId := "rid" }

/-- oldHdrW is a concrete cookie session header with T0 = 20, L = 100. -/
def oldHdrW : SessionHeader :=
  { bearer := false, lifetimeSec := 100, refreshPeriodSec := 10, issuedAt := 20 }

theorem C4_refreshPreservesAbsoluteExpiry_witness :
    (∃ tok, CreateRefreshAuthorization 50 [] 0 claimsW oldHdrW keyW [107] 0 genW false
      = .ok tok) ∧
    (refreshedSessionHeader 50 oldHdrW 0).issuedAt
      + (refreshedSessionHeader 50 oldHdrW 0).lifetimeSec
      = oldHdrW.issuedAt + oldHdrW.lifetimeSec ∧
    CreateRefreshAuthorization 200 [] 0 claimsW oldHdrW keyW [107] 0 genW false
      = .error "cannot refresh an already expired token" := by
  have h50 := C4_refreshPreservesAbsoluteExpiry 50 0 [] claimsW oldHdrW keyW [107] 0
    genW false "user" (by rfl) (by decide) (by decide) (by decide)
  have h200 := C4_refreshPreservesAbsoluteExpiry 200 0 [] claimsW oldHdrW keyW [107] 0
    genW false "user" (by rfl) (by decide) (by decide) (by decide)
  exact ⟨(h50.1 (by decide)).1, (h50.1 (by decide)).2.1, h200.2 (by decide)⟩

/-- CsrfHeader models `core.CsrfHeader` (absolute expiry / refresh instants,
unix seconds). -/
structure CsrfHeader where
  expiresAt : Int
  refreshAt : Int
deriving DecidableEq

/-- CsrfHeader.IsExpired models `(h *CsrfHeader) IsExpired`. -/
def CsrfHeader.IsExpired (h : CsrfHeader) (now : Int) : Bool := h.expiresAt < now

/-- CsrfHeader.NeedsRefresh models `(h *CsrfHeader) NeedsRefresh`. -/
def CsrfHeader.NeedsRefresh (h : CsrfHeader) (now : Int) : Bool := h.refreshAt < now

/-- CsrfHeader.IsValid models `(h *CsrfHeader) IsValid`. -/
def CsrfHeader.IsValid (h : CsrfHeader) : Bool :=
  h.expiresAt > 0 && h.refreshAt > 0

/-- CompleteCsrfToken models `core.CompleteCsrfToken` (the embedded
`CsrfHeader` supplies the validity/expiry/refresh methods). -/
structure CompleteCsrfToken where
  header : CsrfHeader
  token : String
  tie : String
  version : String
  tied : Bool
deriving DecidableEq

/-- AppError models `errors.AppError` at the granularity validateCsrf needs. -/
inductive AppError
  | unauthorized (msg : String)
  | internalServerError (msg : String)
deriving DecidableEq

/-- claimsHasSession is the Go condition `claims != nil && claims.HasSession`. -/
def claimsHasSession : Option SessionClaims → Bool
  | some c => c.hasSession
  | none => false

/-- claimsTieLookup is `claims.GetClaim(CsrfTokenTie)` on a possibly-nil
claims pointer (only consulted under `claims != nil` in the source). -/
def claimsTieLookup : Option SessionClaims → String × Bool
  | some c => c.getClaim CsrfTokenTie
  | none => ("", false)

/-- validateCsrf models `core.validateCsrf` (src/unnamed/part_016:182-235).
`AutoSetCsrfCookie` is abstracted to its success flag `autoSetOk`: on every
rejection path the cookie reissue is attempted first, and its failure turns
the rejection into an internal server error; on the needs-refresh path its
failure is the only error. -/
def validateCsrf (now : Int) (autoSetOk : Bool) (claims : Option SessionClaims)
    (csrfToken : Option CompleteCsrfToken) : Option AppError :=
  match csrfToken with
  | none => some (.unauthorized "CSRF token is required")
  | some t =>
    let reject : Option AppError :=
      if autoSetOk then some (.unauthorized "CSRF token is invalid or expired")
      else some (.internalServerError "Failed to set CSRF cookie")
    if t.header.IsValid = false ∨ t.header.IsExpired now = true then reject
    else if t.tied = false ∧ claimsHasSession claims = true then reject
    else if (claims.isSome ∧ t.tied = true) ∧
        ((claimsTieLookup claims).1 ≠ t.tie ∨ (claimsTieLookup claims).2 = false) then
      reject
    else if t.header.NeedsRefresh now = true ∧ autoSetOk = false then
      some (.internalServerError "Failed to set CSRF cookie")
    else none

/-- C3: CSRF tying.  For a request with non-nil claims whose HasSession is
true: an untied token is rejected; a tied token whose tie differs from the
session csrf-tie claim is rejected; a structurally valid, unexpired, tied
token whose tie equals the session csrf-tie claim is accepted (returns nil),
provided the best-effort cookie reissue does not itself fail. -/
theorem C3_csrfTying (now : Int) (autoSetOk : Bool) (c : SessionClaims)
    (t : CompleteCsrfToken) (hs : c.hasSession = true) :
    (t.tied = false → (validateCsrf now autoSetOk (some c) (some t)).isSome = true) ∧
    (t.tied = true → (c.getClaim CsrfTokenTie).1 ≠ t.tie →
      (validateCsrf now autoSetOk (some c) (some t)).isSome = true) ∧
    (t.tied = true → t.header.IsValid = true → t.header.IsExpired now = false →
      c.getClaim CsrfTokenTie = (t.tie, true) → autoSetOk = true →
      validateCsrf now autoSetOk (some c) (some t) = none) := by
  refine ⟨?_, ?_, ?_⟩
  · intro ht
    unfold validateCsrf claimsHasSession claimsTieLookup
    split_ifs
    all_goals simp_all
  · intro ht hne
    unfold validateCsrf claimsHasSession claimsTieLookup
    split_ifs
    all_goals simp_all
  · intro ht hval hexp htie hset
    unfold validateCsrf claimsHasSession claimsTieLookup
    split_ifs
    all_goals simp_all

/-- csrfTokenW is a concrete valid, unexpired, tied CSRF token. -/
def csrfTokenW : CompleteCsrfToken :=
  { header := { expiresAt := 1000, refreshAt := 1000 }, token := "tok",
    tie := "tie", version := "CG1", tied := true }

/-- csrfClaimsW is a concrete authenticated claims set tied to csrfTokenW. -/
def csrfClaimsW : SessionClaims :=
  { claims := [(CsrfTokenTie, "tie")], hasSession := true }

theorem C3_csrfTying_witness :
    validateCsrf 10 true (some csrfClaimsW) (some csrfTokenW) = none ∧
    (validateCsrf 10 true (some csrfClaimsW)
      (some { csrfTokenW with tied := false })).isSome = true := by
  have h := C3_csrfTying 10 true csrfClaimsW csrfTokenW (by rfl)
  have h2 := C3_csrfTying 10 true csrfClaimsW { csrfTokenW with tied := false } (by rfl)
  exact ⟨h.2.2 (by rfl) (by decide) (by decide) (by rfl) (by rfl), h2.1 (by rfl)⟩

/-- Permission models `rbac.Permission`, a `math/big.Int` bitmask, as a
natural number (the masks built by the code are always non-negative). -/
abbrev Permission := Nat

/-- NewPermission models `rbac.NewPermission`: the single-bit mask `2^bit`. -/
def NewPermission (bit : Nat) : Permission := Nat.shiftLeft 1 bit

/-- Permission.Or models `(p *Permission) Or`. -/
def Permission.Or (p other : Permission) : Permission := p ||| other

/-- Permission.And models `(p *Permission) And`. -/
def Permission.And (p other : Permission) : Permission := p &&& other

/-- Permission.Has models `(p *Permission) Has` for non-nil operands:
`(p AND q) == q`. -/
def Permission.Has (p q : Permission) : Bool := (p &&& q) == q

/-- Permissions models `rbac.Permissions`; elements are the (non-nil)
`*Permission` entries. -/
abbrev Permissions := List Permission

/-- Permissions.Flatten models `(ps Permissions) Flatten`: fold bitwise OR
over a zero accumulator. -/
def Permissions.Flatten (ps : Permissions) : Permission := ps.foldl (fun r p => r ||| p) 0

theorem land_lor_self (a b : Nat) : ((a ||| b) &&& a) = a := by
  apply Nat.eq_of_testBit_eq
  intro i
  rw [Nat.testBit_land, Nat.testBit_lor]
  cases a.testBit i <;> cases b.testBit i <;> rfl

theorem land_lor_self_right (a b : Nat) : ((a ||| b) &&& b) = b := by
  apply Nat.eq_of_testBit_eq
  intro i
  rw [Nat.testBit_land, Nat.testBit_lor]
  cases a.testBit i <;> cases b.testBit i <;> rfl

theorem land_land_self (a b : Nat) : ((a &&& b) &&& a) = (a &&& b) := by
  apply Nat.eq_of_testBit_eq
  intro i
  simp only [Nat.testBit_land]
  cases a.testBit i <;> cases b.testBit i <;> rfl

/-- C9: permission bitmask algebra.  `a.Or(b).Has(a)` and `a.Or(b).Has(b)`
hold; `a.And(b).Has(a)` holds only if `a = a.And(b)`; `Flatten [a,b,c] =
a.Or(b).Or(c)`; `Flatten [] = 0`. -/
theorem C9_permissionBitmaskAlgebra (a b c : Permission) :
    Permission.Has (Permission.Or a b) a = true ∧
    Permission.Has (Permission.Or a b) b = true ∧
    (Permission.Has (Permission.And a b) a = true → a = Permission.And a b) ∧
    Permissions.Flatten [a, b, c] = Permission.Or (Permission.Or a b) c ∧
    Permissions.Flatten ([] : Permissions) = 0 := by
  refine ⟨?_, ?_, ?_, ?_, rfl⟩
  · simp [Permission.Has, Permission.Or, land_lor_self]
  · simp [Permission.Has, Permission.Or, land_lor_self_right]
  · intro h
    simp only [Permission.Has, Permission.And, beq_iff_eq, land_land_self] at h
    exact h.symm
  · simp [Permissions.Flatten, Permission.Or, List.foldl, Nat.zero_or]

theorem C9_permissionBitmaskAlgebra_witness :
    (1 : Permission) = Permission.And 1 3 ∧
    Permission.Has (Permission.Or 1 2) 2 = true :=
  ⟨(C9_permissionBitmaskAlgebra 1 3 0).2.2.1 (by decide),
   (C9_permissionBitmaskAlgebra 1 2 0).2.1⟩

/-- PermissionsOrRole is the `RouteRbacPolicy` flag `1 << 0`. -/
def PermissionsOrRole : Nat := 1

/-- PermissionsOrAllRoles is the `RouteRbacPolicy` flag `1 << 1`. -/
def PermissionsOrAllRoles : Nat := 2

/-- PermissionsAndRole is the `RouteRbacPolicy` flag `1 << 2`. -/
def PermissionsAndRole : Nat := 4

/-- PermissionsAndAllRoles is the `RouteRbacPolicy` flag `1 << 3`. -/
def PermissionsAndAllRoles : Nat := 8

/-- PermissionsOnly is the `RouteRbacPolicy` flag `1 << 4`. -/
def PermissionsOnly : Nat := 16

/-- RoleOnly is the `RouteRbacPolicy` flag `1 << 5`. -/
def RoleOnly : Nat := 32

/-- roleCheck models `rbac.roleCheck` (src/rbac/permissions_test.go:706-750).
The Go `map[string]bool` of route roles is its key list. -/
def roleCheck (subjectRoles routeRolesList : List String)
    (routeRbacPolicy : Nat) : Bool :=
  if routeRolesList.length = 0 then true
  else if routeRbacPolicy = PermissionsOrRole ∨ routeRbacPolicy = PermissionsAndRole then
    subjectRoles.any (fun r => routeRolesList.contains r)
  else if routeRbacPolicy = PermissionsOrAllRoles ∨ routeRbacPolicy = PermissionsAndAllRoles then
    routeRolesList.all (fun r => subjectRoles.contains r)
  else false

/-- GoResult is the outcome of a Go call that may return a value, return an
error, or panic (nil-pointer dereference). -/
inductive GoResult (α : Type) where
  | ok (a : α)
  | err (msg : String)
  | panicked
deriving DecidableEq

/-- permHasPtr models `p.Has(q)` where `q` is a `*Permission` pointer: with a
nil argument, `big.Int.And` dereferences the nil operand and the call panics. -/
def permHasPtr (p : Permission) (q : Option Permission) : GoResult Bool :=
  match q with
  | none => .panicked
  | some q0 => .ok (Permission.Has p q0)

/-- mergeRolePermissionsAux is the accumulation loop of
`rbac.mergeRolePermissions`: nil role permission sets are skipped, an error
aborts, the collected permissions are flattened at the end. -/
def mergeRolePermissionsAux (getRolePerms : String → GoResult (Option Permissions)) :
    List String → Permissions → GoResult Permission
  | [], acc => .ok (Permissions.Flatten acc)
  | r :: rest, acc =>
    match getRolePerms r with
    | .err e => .err e
    | .panicked => .panicked
    | .ok none => mergeRolePermissionsAux getRolePerms rest acc
    | .ok (some ps) => mergeRolePermissionsAux getRolePerms rest (acc ++ ps)

/-- mergeRolePermissions models `rbac.mergeRolePermissions`
(src/rbac/permissions_test.go:752-766). -/
def mergeRolePermissions (subjectRoles : List String)
    (getRolePerms : String → GoResult (Option Permissions)) : GoResult Permission :=
  mergeRolePermissionsAux getRolePerms subjectRoles []

/-- CheckPermissions models `rbac.CheckPermissions`
(src/rbac/permissions_test.go:770-832).  The subject fetch outcome
(`FetchSubjectRolesAndPermissions`) and the per-role fetch
(`GetRolePermissions`) are parameters; `none` components are the nil pointers
the code guards with `&Permission\x7b\x7d` / `&[]string\x7b\x7d`. -/
def CheckPermissions
    (fetchSubject : GoResult (Option Permission × Option (List String)))
    (getRolePerms : String → GoResult (Option Permissions))
    (requiredPermissions : Option Permission) (requiredRoles : List String)
    (policy : Nat) : GoResult Bool :=
  if requiredRoles.length = 0 ∧ requiredPermissions = none then .ok true
  else
    match fetchSubject with
    | .err e => .err e
    | .panicked => .panicked
    | .ok (sp0, sr0) =>
      let subjectPermissions := sp0.getD 0
      let subjectRoles := sr0.getD []
      let hasRole := roleCheck subjectRoles requiredRoles policy
      if (policy = PermissionsOrRole ∨ policy = PermissionsOrAllRoles) ∧ hasRole = true then
        .ok true
      else if (policy = PermissionsAndRole ∨ policy = PermissionsAndAllRoles) ∧
          hasRole = false then
        .ok false
      else
        match permHasPtr subjectPermissions requiredPermissions with
        | .err e => .err e
        | .panicked => .panicked
        | .ok hasDirect =>
          if hasDirect = true then .ok true
          else
            match mergeRolePermissions subjectRoles getRolePerms with
            | .err e => .err e
            | .panicked => .panicked
            | .ok merged => permHasPtr merged requiredPermissions

/-- C5 counterexample: under the unknown policy value 999 (none of the six
defined combinators), a subject whose direct permissions contain the required
permission is granted access: the role check fails closed but the
direct-permission path still returns true, so `CheckPermissions` does grant
access under an unknown policy. -/
theorem C5_counterexample :
    ((999 : Nat) ≠ PermissionsOrRole ∧ (999 : Nat) ≠ PermissionsOrAllRoles ∧
     (999 : Nat) ≠ PermissionsAndRole ∧ (999 : Nat) ≠ PermissionsAndAllRoles ∧
     (999 : Nat) ≠ PermissionsOnly ∧ (999 : Nat) ≠ RoleOnly) ∧
    CheckPermissions (.ok (some 1, some [])) (fun _ => .ok none) (some 1) ["admin"] 999
      = .ok true :=
  ⟨by decide, by rfl⟩

/-- C5 (amended): unknown policies fail closed in the role check, and
`CheckPermissions` under an unknown policy can grant access only through the
permissions path: whenever it returns true, either nothing was required, or
the required permissions are satisfied by the direct permissions of the subject or
by the merged permissions of the roles of the subject — never by role possession
alone. -/
theorem C5_unknownPolicyFailsClosed
    (policy : Nat)
    (hp : policy ≠ PermissionsOrRole ∧ policy ≠ PermissionsOrAllRoles ∧
      policy ≠ PermissionsAndRole ∧ policy ≠ PermissionsAndAllRoles ∧
      policy ≠ PermissionsOnly ∧ policy ≠ RoleOnly)
    (subjectRoles requiredRoles : List String)
    (fetchSubject : GoResult (Option Permission × Option (List String)))
    (getRolePerms : String → GoResult (Option Permissions))
    (requiredPermissions : Option Permission) :
    (requiredRoles ≠ [] → roleCheck subjectRoles requiredRoles policy = false) ∧
    (CheckPermissions fetchSubject getRolePerms requiredPermissions requiredRoles policy
        = .ok true →
      (requiredRoles = [] ∧ requiredPermissions = none) ∨
      (∃ q sp sr, requiredPermissions = some q ∧ fetchSubject = .ok (sp, sr) ∧
        (Permission.Has (sp.getD 0) q = true ∨
         ∃ merged, mergeRolePermissions (sr.getD []) getRolePerms = .ok merged ∧
           Permission.Has merged q = true))) := by
  obtain ⟨h1, h2, h3, h4, -, -⟩ := hp
  constructor
  · intro hne
    unfold roleCheck
    rw [if_neg (by simpa using hne), if_neg (fun h => h.elim h1 h3),
      if_neg (fun h => h.elim h2 h4)]
  · intro hok
    unfold CheckPermissions at hok
    by_cases hreqz : requiredRoles.length = 0 ∧ requiredPermissions = none
    · exact .inl ⟨List.length_eq_zero.mp hreqz.1, hreqz.2⟩
    rw [if_neg hreqz] at hok
    cases hfs : fetchSubject with
    | err e => rw [hfs] at hok; exact absurd hok (by simp)
    | panicked => rw [hfs] at hok; exact absurd hok (by simp)
    | ok pr =>
      obtain ⟨sp, sr⟩ := pr
      rw [hfs] at hok
      have hc1 : ¬ ((policy = PermissionsOrRole ∨ policy = PermissionsOrAllRoles) ∧
          roleCheck (sr.getD []) requiredRoles policy = true) :=
        fun hc => hc.1.elim h1 h2
      have hc2 : ¬ ((policy = PermissionsAndRole ∨ policy = PermissionsAndAllRoles) ∧
          roleCheck (sr.getD []) requiredRoles policy = false) :=
        fun hc => hc.1.elim h3 h4
      simp only [if_neg hc1, if_neg hc2] at hok
      cases hrp : requiredPermissions with
      | none =>
        rw [hrp] at hok
        simp only [permHasPtr] at hok
        exact absurd hok (by simp)
      | some q =>
        rw [hrp] at hok
        simp only [permHasPtr] at hok
        refine .inr ⟨q, sp, sr, rfl, rfl, ?_⟩
        cases hdirect : Permission.Has (sp.getD 0) q with
        | true => exact .inl rfl
        | false =>
          rw [hdirect] at hok
          simp only [Bool.false_eq_true, if_false] at hok
          cases hmg : mergeRolePermissions (sr.getD []) getRolePerms with
          | err e => rw [hmg] at hok; exact absurd hok (by simp)
          | panicked => rw [hmg] at hok; exact absurd hok (by simp)
          | ok merged =>
            rw [hmg] at hok
            simp only [permHasPtr] at hok
            exact .inr ⟨merged, rfl, by simpa using hok⟩

theorem C5_unknownPolicyFailsClosed_witness :
    roleCheck ["u"] ["admin"] 999 = false :=
  (C5_unknownPolicyFailsClosed 999 (by decide) ["u"] ["admin"]
    (.ok (some 0, some ["u"])) (fun _ => .ok none) (some 1)).1 (by decide)

/-- C10 counterexample: with a nil required-permissions pointer, a non-empty
required-role set, the PermissionsOrRole policy, and a subject lacking every
required role, the direct-permission check applies `Permission.Has` to the nil
pointer, so `CheckPermissions` panics (nil `big.Int` operand dereference)
instead of returning a (bool, error) pair. -/
theorem C10_counterexample :
    CheckPermissions (.ok (some 0, some [])) (fun _ => .ok none) none ["admin"]
      PermissionsOrRole = .panicked := by rfl

theorem mergeRolePermissionsAux_ne_panicked
    (getRolePerms : String → GoResult (Option Permissions))
    (hg : ∀ r, getRolePerms r ≠ .panicked) :
    ∀ (roles : List String) (acc : Permissions),
      mergeRolePermissionsAux getRolePerms roles acc ≠ .panicked := by
  intro roles
  induction roles with
  | nil => intro acc; simp [mergeRolePermissionsAux]
  | cons r rest ih =>
    intro acc
    unfold mergeRolePermissionsAux
    cases hr : getRolePerms r with
    | err e => simp
    | panicked => exact absurd hr (hg r)
    | ok ps =>
      cases ps with
      | none => exact ih acc
      | some l => exact ih (acc ++ l)

/-- C10 (amended): `CheckPermissions` returns a (bool, error) outcome without
panicking whenever the required-permissions pointer is non-nil or both
requirement sets are empty (and the subject/role fetches themselves do not
panic); with a nil required-permissions pointer and a non-empty required-role
set, the direct-permission check can apply `Permission.Has` to nil and panic,
as the counterexample shows. -/
theorem C10_checkPermissionsTotalWithPerms
    (fetchSubject : GoResult (Option Permission × Option (List String)))
    (getRolePerms : String → GoResult (Option Permissions))
    (requiredPermissions : Option Permission) (requiredRoles : List String)
    (policy : Nat)
    (hf : fetchSubject ≠ .panicked)
    (hg : ∀ r, getRolePerms r ≠ .panicked)
    (hreq : requiredPermissions ≠ none ∨ (requiredRoles = [] ∧ requiredPermissions = none)) :
    CheckPermissions fetchSubject getRolePerms requiredPermissions requiredRoles policy
      ≠ .panicked := by
  by_cases hz : requiredRoles.length = 0 ∧ requiredPermissions = none
  · unfold CheckPermissions
    rw [if_pos hz]
    simp
  obtain ⟨q, hq⟩ : ∃ q, requiredPermissions = some q := by
    rcases hreq with h | ⟨he, hn⟩
    · cases hrp : requiredPermissions with
      | none => exact absurd hrp h
      | some q => exact ⟨q, rfl⟩
    · exact absurd ⟨by simp [he], hn⟩ hz
  cases hfs : fetchSubject with
  | err e =>
    unfold CheckPermissions
    rw [if_neg hz]
    simp
  | panicked => exact absurd hfs hf
  | ok pr =>
    obtain ⟨sp, sr⟩ := pr
    unfold CheckPermissions
    rw [if_neg hz, hq]
    dsimp only
    split
    · simp
    split
    · simp
    simp only [permHasPtr]
    split
    · simp
    split
    · simp
    · rename_i heq2
      exact absurd heq2 (mergeRolePermissionsAux_ne_panicked getRolePerms hg _ [])
    · simp [permHasPtr]

theorem C10_checkPermissionsTotalWithPerms_witness :
    CheckPermissions (.ok (some 0, some [])) (fun _ => .ok none) (some 1) ["admin"]
      PermissionsOrRole ≠ .panicked :=
  C10_checkPermissionsTotalWithPerms (.ok (some 0, some [])) (fun _ => .ok none)
    (some 1) ["admin"] PermissionsOrRole (fun h => GoResult.noConfusion h)
    (fun _ h => GoResult.noConfusion h) (.inl (fun h => Option.noConfusion h))

/-- CacheEntry is the observable state of one cache key: absent (the cache
`Get` returned an error, i.e. a miss), present but holding bytes that fail to
unmarshal, or present with a stored value. -/
inductive CacheEntry (α : Type) where
  | absent
  | corrupted
  | stored (a : α)
deriving DecidableEq

/-- fetchFromCache models `rbac.fetchFromCache` (src/rbac/cache.go:11-28) and
equally the subject-cache helpers of src/rbac/fetch_subject.go:13-57: the
result triple is (value, found, error); a Get error is a plain miss, an
unmarshal failure is an error, a hit returns the stored value. -/
def fetchFromCache {α : Type} : CacheEntry α → Option α × Bool × Option String
  | .absent => (none, false, none)
  | .corrupted => (none, false, some "cache: failed to unmarshal key")
  | .stored a => (some a, true, none)

/-- CacheRolePermissions models `rbac.CacheRolePermissions`
(src/rbac/fetch_role.go:67-83): nil permissions are not cached; otherwise
`setInCache` returns an error on a marshal failure or on a cache `Set`
failure. -/
def CacheRolePermissions (permissions : Option Permissions) (marshalOk setOk : Bool) :
    Option String :=
  match permissions with
  | none => none
  | some _ =>
    if marshalOk = false then some "cache: failed to marshal key"
    else if setOk = false then some "cache: failed to set key"
    else none

/-- RoleFetchEnv is the environment one `GetRolePermissions` call observes:
cache availability, the state of the role cache entry, the Manager
answer, and the outcome of the write-back marshal/Set steps. -/
structure RoleFetchEnv where
  cacheAvailable : Bool
  roleEntry : CacheEntry Permissions
  managerRole : Except String (Option Permissions)
  marshalOk : Bool
  setOk : Bool

/-- GetRolePermissions models the singleflight variant of
`rbac.GetRolePermissions` (src/rbac/fetch_role.go:85-141) for one caller:
fall back to the manager when the cache is unavailable; demote a cache read
error to a miss; on a miss run the singleflight closure, which fetches from
the manager and, when the cache write-back fails, returns that error as the
closure value with a nil error — making the subsequent type
assertion fail with "unexpected type from singleflight result". -/
def GetRolePermissions (env : RoleFetchEnv) : Except String (Option Permissions) :=
  if env.cacheAvailable = false then env.managerRole
  else
    let fc := fetchFromCache env.roleEntry
    let found := if fc.2.2.isSome then false else fc.2.1
    let cached := if fc.2.2.isSome then none else fc.1
    if found = true then .ok cached
    else
      match env.managerRole with
      | .error e => .error ("manager: failed to fetch role permissions: " ++ e)
      | .ok sourcePerms =>
        match CacheRolePermissions sourcePerms env.marshalOk env.setOk with
        | some _ => .error "unexpected type from singleflight result for role permissions"
        | none => .ok sourcePerms

/-- SubjectFetchEnv is the environment one `FetchSubjectRolesAndPermissions`
call observes: cache availability, the two subject cache entries, and the
Manager answer.  The write-back outcomes are absent because the subject
path only logs cache-write failures. -/
structure SubjectFetchEnv where
  cacheAvailable : Bool
  permsEntry : CacheEntry Permissions
  rolesEntry : CacheEntry (List String)
  managerSubject : Except String (Option Permissions × Option (List String))

/-- FetchSubjectRolesAndPermissions models
`rbac.FetchSubjectRolesAndPermissions` (src/rbac/fetch_subject.go:114-190):
manager fallback when the cache is unavailable; the two cache reads (their
unmarshal failures are returned as hard errors, unlike the role path); full
double hit short-circuits; otherwise one manager fetch, whose results are
written back only best-effort (failures logged, never returned). -/
def FetchSubjectRolesAndPermissions (env : SubjectFetchEnv) :
    Except String (Option Permissions × Option (List String)) :=
  if env.cacheAvailable = false then env.managerSubject
  else
    let fp := fetchFromCache env.permsEntry
    let fr := fetchFromCache env.rolesEntry
    match fp.2.2 with
    | some e => .error e
    | none =>
      match fr.2.2 with
      | some e => .error e
      | none =>
        if fp.2.1 = true ∧ fr.2.1 = true then .ok (fp.1, fr.1)
        else
          match env.managerSubject with
          | .error e => .error ("manager: failed to fetch subject data: " ++ e)
          | .ok pr => .ok pr

/-- fetchSubjectManagerCalls counts how many times one
`FetchSubjectRolesAndPermissions` call invokes
`Manager.GetSubjectRolesAndPermissions`, as a function of the cache state the
call observes. -/
def fetchSubjectManagerCalls (env : SubjectFetchEnv) : Nat :=
  if env.cacheAvailable = false then 1
  else
    let fp := fetchFromCache env.permsEntry
    let fr := fetchFromCache env.rolesEntry
    match fp.2.2 with
    | some _ => 0
    | none =>
      match fr.2.2 with
      | some _ => 0
      | none => if fp.2.1 = true ∧ fr.2.1 = true then 0 else 1

/-- concurrentSubjectMissManagerCalls: total manager invocations when `n`
concurrent callers run `FetchSubjectRolesAndPermissions` for the same
uncached key under the schedule in which every caller reads the cache before
any write-back lands.  The subject path has no singleflight (unlike
the role path) and takes no lock, so this schedule is admissible and each
caller observes the same initial cache state and fetches independently. -/
def concurrentSubjectMissManagerCalls (env : SubjectFetchEnv) (n : Nat) : Nat :=
  n * fetchSubjectManagerCalls env

/-- subjectMissEnvW: an available cache with both subject entries uncached and
a manager that answers successfully (the situation of the repository test
"Concurrent requests use singleflight" with 10 goroutines). -/
def subjectMissEnvW : SubjectFetchEnv :=
  { cacheAvailable := true, permsEntry := .absent, rolesEntry := .absent,
    managerSubject := .ok (some [3], some ["admin"]) }

/-- C6: the subject fetch path has no stampede protection.  Ten concurrent
lookups of the same uncached subject key invoke the Manager ten times — not
once as the claim (and the concurrency test of the repository) requires — even
though every caller succeeds with the manager result. -/
theorem C6_subjectFetchStampede :
    concurrentSubjectMissManagerCalls subjectMissEnvW 10 = 10 ∧
    FetchSubjectRolesAndPermissions subjectMissEnvW = .ok (some [3], some ["admin"]) ∧
    (10 : Nat) ≠ 1 :=
  ⟨rfl, rfl, by decide⟩

/-- roleSetFailEnvW: role-permissions fetch environment where the cache is
available but empty for the role, the manager answers successfully, and the
cache `Set` write-back fails. -/
def roleSetFailEnvW : RoleFetchEnv :=
  { cacheAvailable := true, roleEntry := .absent, managerRole := .ok (some [1]),
    marshalOk := true, setOk := false }

/-- C7: a cache-write failure is not best-effort on the role path.  When the
manager fetch succeeds but the cache `Set` fails, `GetRolePermissions`
returns an error instead of the freshly fetched permissions: the singleflight
closure returns the cache error as its value, and the type assertion on that
value fails.  (The subject path conforms: its write-back failures are only
logged, as `FetchSubjectRolesAndPermissions` shows by construction.) -/
theorem C7_roleCacheWriteFailureFailsRequest :
    GetRolePermissions roleSetFailEnvW
      = .error "unexpected type from singleflight result for role permissions" ∧
    GetRolePermissions { roleSetFailEnvW with marshalOk := false }
      = .error "unexpected type from singleflight result for role permissions" :=
  ⟨rfl, rfl⟩

/-- corruptSubjectEnvW: the subject permissions cache entry holds unparseable
bytes; the roles entry is missing; the manager would answer successfully. -/
def corruptSubjectEnvW : SubjectFetchEnv :=
  { cacheAvailable := true, permsEntry := .corrupted, rolesEntry := .absent,
    managerSubject := .ok (some [1], some ["user"]) }

/-- corruptRoleEnvW: the role permissions cache entry holds unparseable
bytes; the manager would answer successfully and write-backs succeed. -/
def corruptRoleEnvW : RoleFetchEnv :=
  { cacheAvailable := true, roleEntry := .corrupted,
    managerRole := .ok (some [1]), marshalOk := true, setOk := true }

/-- C8: a corrupted subject cache entry is surfaced as a hard failure.
`FetchSubjectRolesAndPermissions` returns the unmarshal error instead of
falling back to the (successful) manager fetch, contradicting the claim and
the repository test "Corrupted cache data falls back to manager".  (The
role path does treat a corrupted entry as a miss: `GetRolePermissions` on a
corrupted entry falls back to the manager and succeeds.) -/

theorem C8_corruptedSubjectCacheIsHardError :
    FetchSubjectRolesAndPermissions corruptSubjectEnvW
      = .error "cache: failed to unmarshal key" ∧
    GetRolePermissions corruptRoleEnvW = .ok (some [1]) :=
  ⟨rfl, rfl⟩

end GoThic
